import Mathlib

/- Verification development for the sensor calibration and atmospheric derivation
pipeline of the AVR64dd32 weather-station firmware.  The integer fixed-point
compensation code of BMP390.c is embedded over Int with explicit two's-complement
wraparound where the C types can overflow; the floating-point components
(ElAndAzComp.c, Altitude.c, SHT45.c) are embedded over the rationals, with the
transcendental library functions (pow, tan, exp, log) abstracted as oracle
parameters, and a NaN result modelled as none.  Division written / on Int below
is Euclidean division, which agrees with the C arithmetic right shift on the
power-of-two divisors used here; Int.tdiv is C integer division. -/

/-- Two's-complement wraparound of a 32-bit signed value, the behaviour of gcc for
int32_t arithmetic (2147483648 is 2 raised to 31, 4294967296 is 2 raised to 32). -/
def wrap32 (x : Int) : Int := (x + 2147483648) % 4294967296 - 2147483648

/-- Two's-complement wraparound of a 64-bit signed value (int64_t in C). -/
def wrap64 (x : Int) : Int :=
  (x + 9223372036854775808) % 18446744073709551616 - 9223372036854775808

/-- Two's-complement wraparound of a 16-bit signed value (conversion to int16_t in C). -/
def wrap16 (x : Int) : Int := (x + 32768) % 65536 - 32768

/-- Calibration coefficients of the BMP280 pressure and temperature sensor, as the
signed values used in the arithmetic of BMP390.c (dig_T1 and dig_P1 are unsigned
16-bit, the rest signed 16-bit). -/
structure BMP280Calib where
  dig_T1 : Int
  dig_T2 : Int
  dig_T3 : Int
  dig_P1 : Int
  dig_P2 : Int
  dig_P3 : Int
  dig_P4 : Int
  dig_P5 : Int
  dig_P6 : Int
  dig_P7 : Int
  dig_P8 : Int
  dig_P9 : Int

/-- Mutable sensor-result fields of the global BMP280 record that the pipeline
touches: raw counts UT and UP, the fine temperature, the stored centi-degree
temperature T (int16_t), the stored fixed-point pressure p (uint32_t), and the
floating Temperature (Celsius) and Pressure (hPa) modelled as rationals. -/
structure BMP280State where
  UT : Int
  UP : Int
  t_fine : Int
  T : Int
  p : Int
  Temperature : ℚ
  Pressure : ℚ

/-- CalcTrueTemp of BMP390.c, lines 107 to 119, in int32_t arithmetic.  The value
x / 8 is x shifted right by 3, x / 2048 by 11, x / 16 by 4, x / 4096 by 12,
x / 16384 by 14, x / 256 by 8; dig_T1 * 2 is dig_T1 shifted left by 1.  Returns
the int16_t return value together with the updated state: t_fine and T are
stored, and Temperature is the float (T) / 100 where T is the int32_t local. -/
def CalcTrueTemp (c : BMP280Calib) (s : BMP280State) : Int × BMP280State :=
  let var1 := wrap32 (wrap32 (s.UT / 8 - wrap32 (c.dig_T1 * 2)) * c.dig_T2) / 2048
  let var2 := wrap32 (wrap32 (wrap32 (s.UT / 16 - c.dig_T1) * wrap32 (s.UT / 16 - c.dig_T1)) / 4096
                * c.dig_T3) / 16384
  let tfine := wrap32 (var1 + var2)
  let T := wrap32 (wrap32 (tfine * 5) + 128) / 256
  (wrap16 T, { s with t_fine := tfine, T := wrap16 T, Temperature := (T : ℚ) / 100 })

/-- The intermediate var1 tested by the guard of CalcTruePres (BMP390.c line 131):
(((1 shifted left 47) + (t_fine - 128000)) * dig_P1) shifted right 33, in int64_t
arithmetic.  140737488355328 is 2 raised to 47 and 8589934592 is 2 raised to 33. -/
def presVar1 (c : BMP280Calib) (tf : Int) : Int :=
  wrap64 (wrap64 (140737488355328 + wrap64 (tf - 128000)) * c.dig_P1) / 8589934592

/-- The branch of CalcTruePres below the var1 == 0 guard (BMP390.c lines 136 to
144).  The single division of the function, by the guard value v, occurs only
here; Int.tdiv is C int64_t division.  131072 is 2 raised to 17, 34359738368 is
2 raised to 35, 2147483648 is 2 raised to 31 (p shifted left 31), p / 8192 is p
shifted right 13, and so on.  Writes Pressure := (float) p / 25600 and the
uint32_t field p, and returns (uint32_t) p. -/
def presDivPath (c : BMP280Calib) (s : BMP280State) (v : Int) : Int × BMP280State :=
  let var1 := wrap64 (s.t_fine - 128000)
  let var2a := wrap64 (wrap64 (var1 * var1) * c.dig_P6)
  let var2b := wrap64 (var2a + wrap64 (wrap64 (var1 * c.dig_P5) * 131072))
  let var2c := wrap64 (var2b + wrap64 (c.dig_P4 * 34359738368))
  let p0 := wrap64 (1048576 - s.UP)
  let p1 := Int.tdiv (wrap64 (wrap64 (wrap64 (p0 * 2147483648) - var2c) * 3125)) v
  let v1c := wrap64 (wrap64 (c.dig_P9 * (p1 / 8192)) * (p1 / 8192)) / 33554432
  let v2c := wrap64 (c.dig_P8 * p1) / 524288
  let pf := wrap64 (wrap64 (p1 + v1c + v2c) / 256 + wrap64 (c.dig_P7 * 16))
  (pf % 4294967296, { s with Pressure := (pf : ℚ) / 25600, p := pf % 4294967296 })

/-- CalcTruePres of BMP390.c, lines 125 to 145: if the intermediate var1 is zero
the function returns 0 with the state untouched, otherwise it runs the division
path on that nonzero var1. -/
def CalcTruePres (c : BMP280Calib) (s : BMP280State) : Int × BMP280State :=
  if presVar1 c s.t_fine = 0 then (0, s)
  else presDivPath c s (presVar1 c s.t_fine)

/-- Vendor-sequence var1 of the temperature compensation exactly as the spec
states it, in unbounded integer arithmetic: (((raw_t shifted right 3) -
(dig_T1 shifted left 1)) * dig_T2) shifted right 11. -/
def specVar1 (c : BMP280Calib) (ut : Int) : Int := ((ut / 8 - c.dig_T1 * 2) * c.dig_T2) / 2048

/-- Vendor-sequence var2 as the spec states it, in unbounded integer arithmetic. -/
def specVar2 (c : BMP280Calib) (ut : Int) : Int :=
  (((ut / 16 - c.dig_T1) * (ut / 16 - c.dig_T1)) / 4096 * c.dig_T3) / 16384

/-- Vendor-sequence fine temperature, var1 + var2. -/
def specFine (c : BMP280Calib) (ut : Int) : Int := specVar1 c ut + specVar2 c ut

/-- Vendor-sequence true temperature in centi-degrees, (fine * 5 + 128) shifted
right 8. -/
def specT (c : BMP280Calib) (ut : Int) : Int := (specFine c ut * 5 + 128) / 256

/-- The reference calibration set of the worked example (BMP390.h comment block
and spec section 6). -/
def refCalib : BMP280Calib :=
  { dig_T1 := 27504, dig_T2 := 26435, dig_T3 := -1000,
    dig_P1 := 36477, dig_P2 := -10685, dig_P3 := 3024, dig_P4 := 2855,
    dig_P5 := 140, dig_P6 := -7, dig_P7 := 15500, dig_P8 := -14600, dig_P9 := 6000 }

/-- State holding the reference raw counts UT = 519888 and UP = 415148. -/
def refState : BMP280State :=
  { UT := 519888, UP := 415148, t_fine := 0, T := 0, p := 0, Temperature := 0, Pressure := 0 }

/-- An all-zero calibration set; dig_P1 = 0 forces the var1 == 0 guard to fire. -/
def zeroCalib : BMP280Calib :=
  { dig_T1 := 0, dig_T2 := 0, dig_T3 := 0,
    dig_P1 := 0, dig_P2 := 0, dig_P3 := 0, dig_P4 := 0,
    dig_P5 := 0, dig_P6 := 0, dig_P7 := 0, dig_P8 := 0, dig_P9 := 0 }

/-- An all-zero sensor state. -/
def zeroState : BMP280State :=
  { UT := 0, UP := 0, t_fine := 0, T := 0, p := 0, Temperature := 0, Pressure := 0 }

/-- A state with nonzero published pressure fields, used to observe that the
error path of CalcTruePres leaves them untouched. -/
def errState : BMP280State :=
  { UT := 1, UP := 2, t_fine := 5, T := 0, p := 77, Temperature := 0, Pressure := 3 }

/-- The 16-bit extraction-and-swap expression used for every coefficient in
ReadBMP280Calibration (BMP390.c lines 37 to 50): ((data shifted right sh) masked
with 0xFF) shifted left 8, or-ed with ((data shifted right sh) masked with
0xFF00) shifted right 8. -/
def swap16at (data : Nat) (sh : Nat) : Nat :=
  (((data >>> sh) &&& 0xFF) <<< 8) ||| (((data >>> sh) &&& 0xFF00) >>> 8)

/-- The twelve decoded 16-bit coefficient patterns produced by the calibration
decoder. -/
structure CalibPatterns where
  dig_T1 : Nat
  dig_T2 : Nat
  dig_T3 : Nat
  dig_P1 : Nat
  dig_P2 : Nat
  dig_P3 : Nat
  dig_P4 : Nat
  dig_P5 : Nat
  dig_P6 : Nat
  dig_P7 : Nat
  dig_P8 : Nat
  dig_P9 : Nat

/-- ReadBMP280Calibration of BMP390.c, lines 24 to 53, as a function of the three
64-bit words d0, d1, d2 returned by the three 8-byte register reads (parts 0, 1
and 2).  Each coefficient is the swap expression at its shift, exactly as in the
source. -/
def ReadBMP280Calibration (d0 d1 d2 : Nat) : CalibPatterns :=
  { dig_T1 := swap16at d0 48, dig_T2 := swap16at d0 32,
    dig_T3 := swap16at d0 16, dig_P1 := swap16at d0 0,
    dig_P2 := swap16at d1 48, dig_P3 := swap16at d1 32,
    dig_P4 := swap16at d1 16, dig_P5 := swap16at d1 0,
    dig_P6 := swap16at d2 48, dig_P7 := swap16at d2 32,
    dig_P8 := swap16at d2 16, dig_P9 := swap16at d2 0 }

/-- Semantic 16-bit byte swap: the low byte becomes the high byte and the high
byte becomes the low byte. -/
def byteSwap16 (w : Nat) : Nat := (w % 256) * 256 + (w / 256) % 256

/-- The 16-bit field of a 64-bit word at a given shift. -/
def field16 (data sh : Nat) : Nat := (data >>> sh) % 65536

/-- Modelled from the spec: the body of CRC8MAXIM is not part of the sources
(only its declaration in Settings.h, with return type uint16_t, and its caller
in SHT45.c are).  Spec sections 4.3 and 9 state that the CRC check on the raw
word is deliberately bypassed, so the function passes the measurement word
through unchanged, truncated to its declared 16-bit return type. -/
def CRC8MAXIM (data : Nat) : Nat := data % 65536

/-- The SHT21 humidity and temperature fields written by the separator. -/
structure SHTState where
  RH : ℚ
  T : ℚ

/-- Separator of SHT45.c, lines 123 to 136: branches on bit 1 of the reader
value; the humidity branch scales (reader - 2), the temperature branch scales
reader; 17572 / 100 is 175.72 and 4685 / 100 is 46.85.  The uint32_t subtraction
reader - 2 is Nat subtraction here, the branch condition guarantees reader is at
least 2 so the two agree. -/
def Separator (data : Nat) (s : SHTState) : SHTState :=
  let reader := CRC8MAXIM data
  if reader &&& 2 ≠ 0 then { s with RH := ((reader - 2 : Nat) : ℚ) / 65536 * 125 - 6 }
  else { s with T := (reader : ℚ) / 65536 * (17572 / 100) - 4685 / 100 }

/-- The humidity formula exactly as the spec states it for the raw word w:
(w / 65536) * 125 - 6. -/
def specHumidity (w : Nat) : ℚ := (w : ℚ) / 65536 * 125 - 6

/-- The temperature formula as the spec states it for the raw word w:
(w / 65536) * 175.72 - 46.85. -/
def specTemperature (w : Nat) : ℚ := (w : ℚ) / 65536 * (17572 / 100) - 4685 / 100

/-- Shared mutable station state touched by the refraction and altitude
components: the SUN record (ElAndAzComp.h), the published BMP280 pressure, the
SHT21 temperature and humidity, and the observer altitude (Communications.h,
int16_t). -/
structure Station where
  elevation : ℚ
  azimuth : ℚ
  adjelevation : ℚ
  adjazimuth : ℚ
  Pressure : ℚ
  T : ℚ
  RH : ℚ
  altitude : Int

/-- Oracles standing for the two transcendental double expressions of
ElAndAzComp.c: lapse a is pow(1 - 0.0065 * a / 288.15, 5.255) and tanTerm e is
tan(e * pi / 180 + 10.3 / (e + 5.11)).  The frame claims proved below hold for
every choice of these functions. -/
structure RefrOps where
  lapse : Int → ℚ
  tanTerm : ℚ → ℚ

/-- calculate_refraction of ElAndAzComp.c, lines 25 to 38, returning the
refraction value together with the updated state.  When the elevation is above
the horizon and the observer altitude is positive, the source multiplies the
shared BMP280.Pressure in place by the lapse factor (line 32); 167 / 10000 is
0.0167. -/
def calculate_refraction (ops : RefrOps) (st : Station) : ℚ × Station :=
  if st.elevation ≤ 0 then (0, st)
  else
    let st1 := if st.altitude > 0
      then { st with Pressure := st.Pressure * ops.lapse st.altitude }
      else st
    let refraction0 := 167 / 10000 / ops.tanTerm st.elevation
    let refraction := refraction0 * (st1.Pressure / 1010) * (283 / (273 + st.T))
    (refraction, st1)

/-- correct_solar_angles of ElAndAzComp.c, lines 48 to 55: above the horizon the
adjusted elevation and azimuth are recomputed (with the side effect of
calculate_refraction applied first), below the horizon nothing is written. -/
def correct_solar_angles (ops : RefrOps) (st : Station) : Station :=
  if st.elevation > 0 then
    let r := calculate_refraction ops st
    { r.2 with adjelevation := r.2.elevation + r.1 / 60, adjazimuth := r.2.azimuth }
  else st

/-- Per-cycle external inputs: the ephemeris elevation and azimuth, the fresh
sensor readings and the observer altitude delivered before the correction step
of each main-loop cycle. -/
structure CycleInput where
  elevation : ℚ
  azimuth : ℚ
  pressure : ℚ
  temperature : ℚ
  humidity : ℚ
  altitude : Int

/-- Installs the inputs of one cycle into the station state. -/
def applyInput (st : Station) (inp : CycleInput) : Station :=
  { st with elevation := inp.elevation, azimuth := inp.azimuth, Pressure := inp.pressure,
            T := inp.temperature, RH := inp.humidity, altitude := inp.altitude }

/-- Iterates main-loop cycles: each cycle installs its inputs and then runs
correct_solar_angles, as main.c does via Retransmitt. -/
def runCycles (ops : RefrOps) (st : Station) (inputs : List CycleInput) : Station :=
  inputs.foldl (fun s inp => correct_solar_angles ops (applyInput s inp)) st

/-- Initial station state: SUN is zero-initialised (ElAndAzCompVar.h, with the
adjusted fields zeroed by aggregate initialisation), the published pressure and
the SHT21 fields start at zero, and Date_Clock.altitude starts at -50
(CommunicationsVar.h). -/
def initialStation : Station :=
  { elevation := 0, azimuth := 0, adjelevation := 0, adjazimuth := 0,
    Pressure := 0, T := 0, RH := 0, altitude := -50 }

/-- A concrete oracle choice used for the closed evaluations: a lapse factor of
99 / 100 and a tan term of 1. -/
def exOps : RefrOps := { lapse := fun _ => 99 / 100, tanTerm := fun _ => 1 }

/-- A station in an above-horizon cycle with positive observer altitude and a
published pressure of 1000 hPa. -/
def exStation : Station :=
  { elevation := 10, azimuth := 180, adjelevation := 0, adjazimuth := 0,
    Pressure := 1000, T := 20, RH := 50, altitude := 100 }

/-- A station in a below-horizon cycle with retained adjusted angles 7 and 8. -/
def belowStation : Station :=
  { elevation := -5, azimuth := 30, adjelevation := 7, adjazimuth := 8,
    Pressure := 1000, T := 10, RH := 40, altitude := 100 }

/-- Oracles standing for the transcendental double functions of Altitude.c; a
none result models a NaN.  exp is total on the reals; logQ and powQ may return
none, standing for NaN on arguments outside their real domain. -/
structure AltOps where
  expQ : ℚ → ℚ
  logQ : ℚ → Option ℚ
  powQ : ℚ → Option ℚ

/-- The vapor pressure e of Altitude.c lines 25 to 26: the saturation vapor
pressure A * exp(B * T / (T + C)) times RH / 100, with A = 6.112, B = 17.67,
C = 243.5. -/
def vaporPressure (ops : AltOps) (st : Station) : ℚ :=
  (6112 / 1000 * ops.expQ (1767 / 100 * st.T / (st.T + 2435 / 10))) * (st.RH / 100)

/-- calculate_adjusted_elevation of Altitude.c, lines 22 to 36.  The computation
is unguarded: the ratio SEA_LEVEL_PRESSURE / adjusted_pressure is passed to log
whatever its sign, and a NaN (none) propagates through the multiplications.
Constants: T0 = 273.15, GRAVITY = 9.80665, UNIVERSAL_GAS_CONSTANT = 8.31432,
MOLAR_MASS_AIR = 0.0289644, SEA_LEVEL_PRESSURE = 1013.25. -/
def calculate_adjusted_elevation (ops : AltOps) (st : Station) : Option ℚ :=
  let temp_k := st.T + 27315 / 100
  let e := vaporPressure ops st
  let adjusted_pressure := st.Pressure - e
  (ops.logQ ((101325 / 100) / adjusted_pressure)).map
    (fun lg => temp_k / (980665 / 100000) * lg * ((831432 / 100000) / (289644 / 10000000)))

/-- The three altitude results of Altitude.c. -/
structure Alt where
  UNCOMP : Option ℚ
  COMP : Option ℚ
  AVRG : Option ℚ

/-- AltitudeAverage of Altitude.c, lines 46 to 53: the barometric formula with
the precomputed exponent -0.1902632 abstracted into powQ, the compensated value,
and their mean; a NaN in either operand propagates to the mean. -/
def AltitudeAverage (ops : AltOps) (st : Station) : Alt :=
  let uncomp := (ops.powQ (st.Pressure / (101325 / 100))).map
    (fun pw => 443307692307 / 10000000 * (pw - 1))
  let comp := calculate_adjusted_elevation ops st
  let avrg := match uncomp, comp with
    | some a, some b => some ((a + b) / 2)
    | _, _ => none
  { UNCOMP := uncomp, COMP := comp, AVRG := avrg }

/-- A platform whose log and pow return NaN outside their real domain, as IEEE
double arithmetic does. -/
def nanOps : AltOps :=
  { expQ := fun _ => 1, logQ := fun x => if x ≤ 0 then none else some 0,
    powQ := fun x => if x < 0 then none else some 0 }

/-- A platform whose log and pow return an arbitrary junk finite value
everywhere. -/
def junkOps : AltOps :=
  { expQ := fun _ => 1, logQ := fun _ => some 1, powQ := fun _ => some 1 }

/-- A station whose pressure reading makes the adjusted pressure negative (a
domain-error input for the altitude formulas). -/
def badStation : Station :=
  { elevation := 0, azimuth := 0, adjelevation := 0, adjazimuth := 0,
    Pressure := -1, T := 15, RH := 0, altitude := 0 }

/-- A second domain-error station used for the witness evaluation. -/
def negStation : Station :=
  { elevation := 0, azimuth := 0, adjelevation := 0, adjazimuth := 0,
    Pressure := -5, T := 20, RH := 0, altitude := 0 }

/-- Masking with 255 extracts the low byte. -/
theorem and_255 (x : Nat) : x &&& 255 = x % 256 := by
  have h := Nat.and_pow_two_sub_one_eq_mod x 8
  norm_num at h
  exact h

/-- Masking with 65280 and shifting right by 8 extracts the second byte. -/
theorem and_65280_shiftRight (x : Nat) : (x &&& 65280) >>> 8 = (x / 256) % 256 := by
  apply Nat.eq_of_testBit_eq
  intro j
  have h65280 : (65280 : Nat) = 255 <<< 8 := by decide
  have h255 : (255 : Nat) = 2 ^ 8 - 1 := by norm_num
  have hdiv : x / 256 = x >>> 8 := by
    rw [Nat.shiftRight_eq_div_pow]
  have hmod : x / 256 % 256 = x / 256 % 2 ^ 8 := rfl
  rw [Nat.testBit_shiftRight, Nat.testBit_and, h65280, Nat.testBit_shiftLeft, h255,
    Nat.testBit_two_pow_sub_one, hmod, Nat.testBit_mod_two_pow, hdiv, Nat.testBit_shiftRight]
  have hj : 8 + j - 8 = j := by omega
  rw [hj]
  by_cases hc : j < 8
  · simp [hc]
  · simp [hc]

/-- The extraction-and-swap expression of the calibration decoder is the 16-bit
byte swap of the 16-bit field at the same shift. -/
theorem swap16at_eq (data sh : Nat) : swap16at data sh = byteSwap16 (field16 data sh) := by
  unfold swap16at byteSwap16 field16
  set x := data >>> sh with hx
  have e1 : x &&& 0xFF = x % 256 := and_255 x
  have e2 : (x &&& 0xFF00) >>> 8 = (x / 256) % 256 := and_65280_shiftRight x
  rw [e1, e2]
  have e3 : (x % 256) <<< 8 = 2 ^ 8 * (x % 256) := by
    rw [Nat.shiftLeft_eq]; ring
  rw [e3]
  have e4 : (x / 256) % 256 < 2 ^ 8 := by
    have := Nat.mod_lt (x / 256) (y := 256) (by norm_num)
    omega
  rw [← Nat.mul_add_lt_is_or e4 (x % 256)]
  omega

/-- A value masked with 2 is nonzero exactly when its bit 1 is set. -/
theorem and_two_ne_zero_iff (x : Nat) : x &&& 2 ≠ 0 ↔ x.testBit 1 = true := by
  have h1 : (x &&& 2) % 2 = 0 := by
    rw [← Nat.and_one_is_mod, Nat.and_assoc]
    norm_num
  have h2 : (x &&& 2) / 2 = x / 2 % 2 := by
    rw [Nat.and_div_two]
    norm_num [Nat.and_one_is_mod]
  have h3 : x.testBit 1 = decide (x / 2 % 2 = 1) := by
    have h := Nat.testBit_to_div_mod (x := x) (i := 1)
    norm_num at h
    exact h
  rw [h3]
  simp only [decide_eq_true_eq]
  omega

/-- The branch test of the separator depends only on bit 1 of the raw word. -/
theorem crc_bit_iff (data : Nat) : CRC8MAXIM data &&& 2 ≠ 0 ↔ data.testBit 1 = true := by
  unfold CRC8MAXIM
  rw [and_two_ne_zero_iff]
  have ha : (data % 65536).testBit 1 = decide (data % 65536 / 2 % 2 = 1) := by
    have h := Nat.testBit_to_div_mod (x := data % 65536) (i := 1)
    norm_num at h
    exact h
  have hb : data.testBit 1 = decide (data / 2 % 2 = 1) := by
    have h := Nat.testBit_to_div_mod (x := data) (i := 1)
    norm_num at h
    exact h
  rw [ha, hb]
  simp only [decide_eq_true_eq]
  omega

/-- Below the horizon, correct_solar_angles writes neither adjusted field. -/
theorem below_horizon_retains (ops : RefrOps) (st : Station) (h : st.elevation ≤ 0) :
    (correct_solar_angles ops st).adjelevation = st.adjelevation ∧
    (correct_solar_angles ops st).adjazimuth = st.adjazimuth := by
  unfold correct_solar_angles
  have hng : ¬ st.elevation > 0 := not_lt.mpr h
  simp [hng]

/-- Iterating any number of below-horizon cycles preserves both adjusted fields. -/
theorem runCycles_below_horizon (ops : RefrOps) (inputs : List CycleInput) (st : Station)
    (h : ∀ inp ∈ inputs, inp.elevation ≤ 0) :
    (runCycles ops st inputs).adjelevation = st.adjelevation ∧
    (runCycles ops st inputs).adjazimuth = st.adjazimuth := by
  induction inputs generalizing st with
  | nil => exact ⟨rfl, rfl⟩
  | cons a l ih =>
    have ha : a.elevation ≤ 0 := h a (List.mem_cons_self a l)
    have hl : ∀ inp ∈ l, inp.elevation ≤ 0 := fun inp hm => h inp (List.mem_cons_of_mem a hm)
    have hstep := below_horizon_retains ops (applyInput st a) (by simpa [applyInput] using ha)
    have hrest := ih (correct_solar_angles ops (applyInput st a)) hl
    unfold runCycles at *
    simp only [List.foldl_cons]
    constructor
    · rw [hrest.1, hstep.1]; rfl
    · rw [hrest.2, hstep.2]; rfl

/-- C1: with the reference calibration set loaded and raw temperature count
UT = 519888, CalcTrueTemp returns 2508 centi-degrees; and with raw pressure
count UP = 415148 and the t_fine produced by that temperature step, CalcTruePres
returns an integer p with p / 25600 within 0.01 hPa of 1006.399. -/
theorem calcTrue_reference_example :
    (CalcTrueTemp refCalib refState).1 = 2508 ∧
    |((CalcTruePres refCalib (CalcTrueTemp refCalib refState).2).1 : ℚ) / 25600
        - 1006399 / 1000| < 1 / 100 := by
  constructor
  · decide
  · have h : (CalcTruePres refCalib (CalcTrueTemp refCalib refState).2).1 = 25763824 := by
      decide
    rw [h, abs_lt]
    constructor <;> norm_num

/-- C2: for every calibration set and state, if the intermediate var1 evaluates
to 0 then CalcTruePres returns 0 with the state unchanged, and the division path
(the only place a division occurs, and it divides exactly by var1) is taken only
when var1 is nonzero. -/
theorem calcTruePres_guard_zero (c : BMP280Calib) (s : BMP280State) :
    (presVar1 c s.t_fine = 0 → CalcTruePres c s = (0, s)) ∧
    (presVar1 c s.t_fine ≠ 0 → CalcTruePres c s = presDivPath c s (presVar1 c s.t_fine)) := by
  constructor <;> intro h <;> simp [CalcTruePres, h]

/-- Witness for C2: with dig_P1 = 0 the guard value is 0 and the function
returns 0 leaving the state unchanged. -/
theorem calcTruePres_guard_zero_witness :
    CalcTruePres zeroCalib zeroState = (0, zeroState) :=
  (calcTruePres_guard_zero zeroCalib zeroState).1 (by decide)

/-- C9: whenever the var1 == 0 guard fires, CalcTruePres returns 0 without
writing any state field; in particular the published Pressure (hPa) and the
stored fixed-point p keep the values of the last successful cycle. -/
theorem calcTruePres_error_path_state (c : BMP280Calib) (s : BMP280State)
    (h : presVar1 c s.t_fine = 0) :
    (CalcTruePres c s).1 = 0 ∧ (CalcTruePres c s).2 = s ∧
    (CalcTruePres c s).2.Pressure = s.Pressure ∧ (CalcTruePres c s).2.p = s.p := by
  simp [CalcTruePres, h]

/-- Witness for C9: on the error path the previously stored p = 77 and
Pressure = 3 survive. -/
theorem calcTruePres_error_path_state_witness :
    (CalcTruePres zeroCalib errState).2.Pressure = errState.Pressure ∧
    (CalcTruePres zeroCalib errState).2.p = errState.p :=
  ⟨(calcTruePres_error_path_state zeroCalib errState (by decide)).2.2.1,
   (calcTruePres_error_path_state zeroCalib errState (by decide)).2.2.2⟩

/-- C7: for raw counts and calibration values in range, and whenever the three
products of the sequence stay within int32_t (which is what the valid sensor
range guarantees), CalcTrueTemp computes exactly the vendor sequence in exact
integer arithmetic with no wraparound, stores the fine value in t_fine for the
pressure step, and returns (fine * 5 + 128) shifted right 8. -/
theorem calcTrueTemp_vendor_sequence (c : BMP280Calib) (s : BMP280State)
    (hUT : 0 ≤ s.UT ∧ s.UT < 1048576)
    (hT1 : 0 ≤ c.dig_T1 ∧ c.dig_T1 < 65536)
    (hT2 : -32768 ≤ c.dig_T2 ∧ c.dig_T2 < 32768)
    (hT3 : -32768 ≤ c.dig_T3 ∧ c.dig_T3 < 32768)
    (hov1 : -2147483648 ≤ (s.UT / 8 - c.dig_T1 * 2) * c.dig_T2 ∧
            (s.UT / 8 - c.dig_T1 * 2) * c.dig_T2 ≤ 2147483647)
    (hov2 : (s.UT / 16 - c.dig_T1) * (s.UT / 16 - c.dig_T1) ≤ 2147483647)
    (hov3 : -2147483648 ≤ (s.UT / 16 - c.dig_T1) * (s.UT / 16 - c.dig_T1) / 4096 * c.dig_T3 ∧
            (s.UT / 16 - c.dig_T1) * (s.UT / 16 - c.dig_T1) / 4096 * c.dig_T3 ≤ 2147483647) :
    CalcTrueTemp c s =
      (specT c s.UT,
       { s with t_fine := specFine c s.UT, T := specT c s.UT,
                Temperature := (specT c s.UT : ℚ) / 100 }) := by
  obtain ⟨hUT0, hUT1⟩ := hUT
  obtain ⟨hT1a, hT1b⟩ := hT1
  obtain ⟨hT2a, hT2b⟩ := hT2
  obtain ⟨hT3a, hT3b⟩ := hT3
  obtain ⟨hov1a, hov1b⟩ := hov1
  obtain ⟨hov3a, hov3b⟩ := hov3
  have e1 : wrap32 (c.dig_T1 * 2) = c.dig_T1 * 2 := by unfold wrap32; omega
  have e2 : wrap32 (s.UT / 8 - c.dig_T1 * 2) = s.UT / 8 - c.dig_T1 * 2 := by
    unfold wrap32; omega
  have e3 : wrap32 ((s.UT / 8 - c.dig_T1 * 2) * c.dig_T2)
      = (s.UT / 8 - c.dig_T1 * 2) * c.dig_T2 := by
    unfold wrap32; omega
  have e4 : wrap32 (s.UT / 16 - c.dig_T1) = s.UT / 16 - c.dig_T1 := by
    unfold wrap32; omega
  have e5 : wrap32 ((s.UT / 16 - c.dig_T1) * (s.UT / 16 - c.dig_T1))
      = (s.UT / 16 - c.dig_T1) * (s.UT / 16 - c.dig_T1) := by
    have hsq : 0 ≤ (s.UT / 16 - c.dig_T1) * (s.UT / 16 - c.dig_T1) := mul_self_nonneg _
    unfold wrap32; omega
  have e6 : wrap32 ((s.UT / 16 - c.dig_T1) * (s.UT / 16 - c.dig_T1) / 4096 * c.dig_T3)
      = (s.UT / 16 - c.dig_T1) * (s.UT / 16 - c.dig_T1) / 4096 * c.dig_T3 := by
    unfold wrap32; omega
  have e7 : wrap32 (specVar1 c s.UT + specVar2 c s.UT) = specVar1 c s.UT + specVar2 c s.UT := by
    unfold wrap32 specVar1 specVar2; omega
  have e8 : wrap32 (specFine c s.UT * 5) = specFine c s.UT * 5 := by
    unfold wrap32 specFine specVar1 specVar2; omega
  have e9 : wrap32 (specFine c s.UT * 5 + 128) = specFine c s.UT * 5 + 128 := by
    unfold wrap32 specFine specVar1 specVar2; omega
  have e10 : wrap16 (specT c s.UT) = specT c s.UT := by
    unfold wrap16 specT specFine specVar1 specVar2; omega
  simp only [CalcTrueTemp]
  rw [e1, e2, e3, e4, e5, e6]
  rw [show ((s.UT / 8 - c.dig_T1 * 2) * c.dig_T2) / 2048 = specVar1 c s.UT from rfl]
  rw [show (s.UT / 16 - c.dig_T1) * (s.UT / 16 - c.dig_T1) / 4096 * c.dig_T3 / 16384
        = specVar2 c s.UT from rfl]
  rw [e7]
  rw [show specVar1 c s.UT + specVar2 c s.UT = specFine c s.UT from rfl]
  rw [e8, e9]
  rw [show (specFine c s.UT * 5 + 128) / 256 = specT c s.UT from rfl]
  rw [e10]

/-- Witness for C7: the reference input satisfies all the range hypotheses and
the wrapped computation agrees with the exact vendor sequence there. -/
theorem calcTrueTemp_vendor_sequence_witness :
    CalcTrueTemp refCalib refState =
      (specT refCalib refState.UT,
       { refState with t_fine := specFine refCalib refState.UT, T := specT refCalib refState.UT,
                       Temperature := (specT refCalib refState.UT : ℚ) / 100 }) :=
  calcTrueTemp_vendor_sequence refCalib refState (by decide) (by decide) (by decide)
    (by decide) (by decide) (by decide) (by decide)

/-- C8: for every triple of 64-bit calibration words, each of the twelve decoded
coefficients equals the 16-bit byte swap of the corresponding 16-bit field of
its word, at the vendor-defined shift of that coefficient. -/
theorem readCalibration_byteswap (d0 d1 d2 : Nat) :
    (ReadBMP280Calibration d0 d1 d2).dig_T1 = byteSwap16 (field16 d0 48) ∧
    (ReadBMP280Calibration d0 d1 d2).dig_T2 = byteSwap16 (field16 d0 32) ∧
    (ReadBMP280Calibration d0 d1 d2).dig_T3 = byteSwap16 (field16 d0 16) ∧
    (ReadBMP280Calibration d0 d1 d2).dig_P1 = byteSwap16 (field16 d0 0) ∧
    (ReadBMP280Calibration d0 d1 d2).dig_P2 = byteSwap16 (field16 d1 48) ∧
    (ReadBMP280Calibration d0 d1 d2).dig_P3 = byteSwap16 (field16 d1 32) ∧
    (ReadBMP280Calibration d0 d1 d2).dig_P4 = byteSwap16 (field16 d1 16) ∧
    (ReadBMP280Calibration d0 d1 d2).dig_P5 = byteSwap16 (field16 d1 0) ∧
    (ReadBMP280Calibration d0 d1 d2).dig_P6 = byteSwap16 (field16 d2 48) ∧
    (ReadBMP280Calibration d0 d1 d2).dig_P7 = byteSwap16 (field16 d2 32) ∧
    (ReadBMP280Calibration d0 d1 d2).dig_P8 = byteSwap16 (field16 d2 16) ∧
    (ReadBMP280Calibration d0 d1 d2).dig_P9 = byteSwap16 (field16 d2 0) :=
  ⟨swap16at_eq d0 48, swap16at_eq d0 32, swap16at_eq d0 16, swap16at_eq d0 0,
   swap16at_eq d1 48, swap16at_eq d1 32, swap16at_eq d1 16, swap16at_eq d1 0,
   swap16at_eq d2 48, swap16at_eq d2 32, swap16at_eq d2 16, swap16at_eq d2 0⟩

/-- Counterexample for C4: at the raw word 32770 (bit 1 set) the separator
produces 56.5 percent, but the claimed formula (raw_word / 65536) * 125 - 6
gives a different value: the code subtracts the status bit before scaling. -/
theorem separator_claim_counterexample :
    (Separator 32770 { RH := 0, T := 0 }).RH = 113 / 2 ∧
    specHumidity 32770 ≠ 113 / 2 := by
  constructor
  · have hc : CRC8MAXIM 32770 &&& 2 ≠ 0 := by decide
    simp only [Separator]
    rw [if_pos hc]
    norm_num [CRC8MAXIM]
  · simp only [specHumidity]
    norm_num

/-- C4 as amended: the separator branches exactly on bit 1 of the raw word; when
that bit is set the humidity is ((reader - 2) / 65536) * 125 - 6, with the
status bit subtracted off before scaling, and otherwise the temperature is
(reader / 65536) * 175.72 - 46.85, where reader is the 16-bit value the
(spec-modelled) CRC8MAXIM pass-through yields from the word. -/
theorem separator_status_bit_cleared (data : Nat) (s : SHTState) :
    (CRC8MAXIM data &&& 2 ≠ 0 ↔ data.testBit 1 = true) ∧
    (CRC8MAXIM data &&& 2 ≠ 0 →
      Separator data s
        = { s with RH := ((CRC8MAXIM data - 2 : Nat) : ℚ) / 65536 * 125 - 6 }) ∧
    (CRC8MAXIM data &&& 2 = 0 →
      Separator data s = { s with T := specTemperature (CRC8MAXIM data) }) := by
  refine ⟨crc_bit_iff data, fun h => ?_, fun h => ?_⟩
  · simp only [Separator]
    rw [if_pos h]
  · simp only [Separator]
    rw [if_neg (fun hne => hne h)]
    rfl

/-- Witness for C4: the humidity branch at the word 32770, from a state with
previously stored temperature 2, which survives. -/
theorem separator_status_bit_cleared_witness :
    Separator 32770 { RH := 1, T := 2 }
      = { RH := ((CRC8MAXIM 32770 - 2 : Nat) : ℚ) / 65536 * 125 - 6, T := 2 } :=
  (separator_status_bit_cleared 32770 { RH := 1, T := 2 }).2.1 (by decide)

/-- C3 evidence: in an above-horizon cycle with positive observer altitude, the
refraction correction multiplies the shared published pressure in place (here
1000 becomes 990 with a lapse factor of 99 / 100), so AltitudeAverage, which
main.c runs after Retransmitt in the same cycle, consumes the mutated value. -/
theorem refraction_mutates_shared_pressure :
    (correct_solar_angles exOps exStation).Pressure = 990 ∧
    exStation.Pressure = 1000 ∧
    (correct_solar_angles exOps exStation).Pressure ≠ exStation.Pressure := by
  have h1 : (correct_solar_angles exOps exStation).Pressure = 990 := by
    simp only [correct_solar_angles, calculate_refraction, exOps, exStation]
    norm_num
  refine ⟨h1, rfl, ?_⟩
  rw [h1]
  norm_num [exStation]

/-- C5: below the horizon correct_solar_angles leaves the adjusted elevation and
azimuth unchanged, over a single call and over arbitrarily many iterated cycles
of below-horizon inputs, and before any above-horizon cycle the retained values
are the initial 0 and 0. -/
theorem below_horizon_retention :
    (∀ (ops : RefrOps) (st : Station), st.elevation ≤ 0 →
       (correct_solar_angles ops st).adjelevation = st.adjelevation ∧
       (correct_solar_angles ops st).adjazimuth = st.adjazimuth) ∧
    (∀ (ops : RefrOps) (inputs : List CycleInput) (st : Station),
       (∀ inp ∈ inputs, inp.elevation ≤ 0) →
       (runCycles ops st inputs).adjelevation = st.adjelevation ∧
       (runCycles ops st inputs).adjazimuth = st.adjazimuth) ∧
    (initialStation.adjelevation = 0 ∧ initialStation.adjazimuth = 0) :=
  ⟨below_horizon_retains, runCycles_below_horizon, rfl, rfl⟩

/-- Witness for C5: a below-horizon call retains the previously stored adjusted
angles 7 and 8. -/
theorem below_horizon_retention_witness :
    (correct_solar_angles exOps belowStation).adjelevation = belowStation.adjelevation ∧
    (correct_solar_angles exOps belowStation).adjazimuth = belowStation.adjazimuth :=
  below_horizon_retention.1 exOps belowStation (by norm_num [belowStation])

/-- C10: with the sun at or below the horizon calculate_refraction returns 0 and
leaves the whole state untouched, and in general the shared pressure is
multiplied by the lapse factor exactly when the elevation and the observer
altitude are both positive. -/
theorem calculate_refraction_frame (ops : RefrOps) (st : Station) :
    (st.elevation ≤ 0 → calculate_refraction ops st = (0, st)) ∧
    (¬(st.elevation > 0 ∧ st.altitude > 0) → (calculate_refraction ops st).2 = st) ∧
    (st.elevation > 0 ∧ st.altitude > 0 →
      (calculate_refraction ops st).2
        = { st with Pressure := st.Pressure * ops.lapse st.altitude }) := by
  refine ⟨fun h => ?_, fun h => ?_, fun h => ?_⟩
  · unfold calculate_refraction
    simp [h]
  · unfold calculate_refraction
    by_cases he : st.elevation ≤ 0
    · simp [he]
    · have he2 : st.elevation > 0 := lt_of_not_le he
      have ha : ¬ st.altitude > 0 := by tauto
      simp [he, ha]
  · unfold calculate_refraction
    have he : ¬ st.elevation ≤ 0 := not_le.mpr h.1
    simp [he, h.2]

/-- Witness for C10: a below-horizon call returns refraction 0 and the state
unchanged. -/
theorem calculate_refraction_frame_witness :
    calculate_refraction exOps belowStation = (0, belowStation) :=
  (calculate_refraction_frame exOps belowStation).1 (by norm_num [belowStation])

/-- Counterexample for C6: on a domain-error input (adjusted pressure negative)
the altitude computation has no guard: on a platform whose log yields NaN it
returns NaN (none) and the averaged altitude is NaN too, while on a platform
whose log yields a junk finite value it returns a junk finite value, so no
defined unavailable sentinel distinct from a valid zero is ever produced. -/
theorem altitude_no_sentinel_counterexample :
    calculate_adjusted_elevation nanOps badStation = none ∧
    calculate_adjusted_elevation junkOps badStation
      = some ((15 + 27315 / 100) / (980665 / 100000) * 1
              * ((831432 / 100000) / (289644 / 10000000))) ∧
    (AltitudeAverage nanOps badStation).AVRG = none := by
  refine ⟨?_, ?_, ?_⟩
  · simp only [calculate_adjusted_elevation, vaporPressure, nanOps, badStation]
    norm_num
  · simp only [calculate_adjusted_elevation, vaporPressure, junkOps, badStation]
    norm_num
  · simp only [AltitudeAverage, calculate_adjusted_elevation, vaporPressure, nanOps, badStation]
    norm_num

/-- C6 as amended: the code performs no domain guard; whenever the adjusted
pressure is negative, the logarithm receives a negative ratio and the resulting
NaN propagates to the compensated altitude (modelled as none), on any platform
whose log yields NaN outside its real domain. -/
theorem altitude_nan_propagates (ops : AltOps) (st : Station)
    (hlog : ∀ x : ℚ, x ≤ 0 → ops.logQ x = none)
    (hneg : st.Pressure - vaporPressure ops st < 0) :
    calculate_adjusted_elevation ops st = none ∧ (AltitudeAverage ops st).COMP = none := by
  have hmain : calculate_adjusted_elevation ops st = none := by
    simp only [calculate_adjusted_elevation]
    have hratio : (101325 / 100 : ℚ) / (st.Pressure - vaporPressure ops st) ≤ 0 :=
      le_of_lt (div_neg_of_pos_of_neg (by norm_num) hneg)
    rw [hlog _ hratio]
    rfl
  exact ⟨hmain, by simp only [AltitudeAverage]; exact hmain⟩

/-- Witness for C6 as amended: with pressure -5 hPa and zero humidity the
compensated altitude is NaN. -/
theorem altitude_nan_propagates_witness :
    calculate_adjusted_elevation nanOps negStation = none ∧
    (AltitudeAverage nanOps negStation).COMP = none :=
  altitude_nan_propagates nanOps negStation
    (fun x hx => by simp [nanOps, hx])
    (by norm_num [vaporPressure, nanOps, negStation])
